import Mathlib

/-!
Verification of the AMAZON-AUTOMATION backend against its specification.

The Python sources under `apps/backend` are shallowly embedded here:
pure fragments become Lean functions over `List Char` / `List String` /
`Int` / `Nat`; Python `float` arithmetic in the currency normalizer is
idealized as exact arithmetic on scaled integers (the decimal values
involved are exact); stateful module-level column offsets become explicit
state records; a Python function that may raise is modelled with `Option`
or an explicit success flag.
-/

/- ===================================================================
   apps/backend/getCategoryRev.py : _normalize_currency_number
   =================================================================== -/

/-- Whitespace characters as recognized by Python's `str.strip` and the
regex class `\s` (the variants that can occur in this pipeline). -/
def pyIsSpaceChar (c : Char) : Bool :=
  c = ' ' || c = '\t' || c = '\n' || c = '\r' || c = Char.ofNat 11 || c = Char.ofNat 12 ||
  c = Char.ofNat 0xA0 || c = Char.ofNat 0x2007 || c = Char.ofNat 0x2009 || c = Char.ofNat 0x202F

/-- Python `s.strip()` on a character list: drop leading and trailing
whitespace. -/
def stripChars (l : List Char) : List Char :=
  ((l.dropWhile pyIsSpaceChar).reverse.dropWhile pyIsSpaceChar).reverse

/-- Multiplier for a K/M/B magnitude suffix (case-insensitive), `none`
for any other character.  Mirrors `{'K': 1_000, 'M': 1_000_000,
'B': 1_000_000_000}` in `_normalize_currency_number`. -/
def kmbMult (c : Char) : Option Nat :=
  if c = 'K' || c = 'k' then some 1000
  else if c = 'M' || c = 'm' then some 1000000
  else if c = 'B' || c = 'b' then some 1000000000
  else none

/-- Step (1) of `_normalize_currency_number`: the case-insensitive search for
a final K/M/B (followed only by trailing whitespace) on an already stripped
string matches exactly when the last character is such a suffix; the suffix
is removed and the rest re-stripped. -/
def splitKMB (l : List Char) : Nat × List Char :=
  match l.getLast? with
  | some c =>
    match kmbMult c with
    | some m => (m, stripChars l.dropLast)
    | none => (1, l)
  | none => (1, l)

/-- Separator-space family of the cleaning step: non-breaking space, narrow
no-break space, thin space, figure space, word joiner and the apostrophe
(codepoint 39); together with digits, dot, comma and the plain space these
are the characters the cleaning substitution keeps. -/
def sepSpaceChars : List Char :=
  [Char.ofNat 0xA0, Char.ofNat 0x202F, Char.ofNat 0x2009, Char.ofNat 0x2007,
   Char.ofNat 0x2060, Char.ofNat 39]

/-- Predicate for the character class kept by the cleaning substitution. -/
def keptByClean (c : Char) : Bool :=
  c.isDigit || c = '.' || c = ',' || c = ' ' || sepSpaceChars.contains c

/-- Second cleaning substitution: normalize every separator-space variant and
apostrophe to a plain space. -/
def toPlainSpace (c : Char) : Char :=
  if sepSpaceChars.contains c then ' ' else c

/-- The substitution `re.sub(r"\s+", " ", ...)`: collapse runs of spaces to a
single space (after `toPlainSpace` the only whitespace left is a plain space). -/
def collapseSpacesAux : Bool → List Char → List Char
  | _, [] => []
  | lastSp, c :: rest =>
    if c = ' ' then
      if lastSp then collapseSpacesAux true rest
      else ' ' :: collapseSpacesAux true rest
    else c :: collapseSpacesAux false rest

/-- Steps (2)-(3) of `_normalize_currency_number`: keep only digits and
potential separators, normalize separator variants to a space, collapse
space runs and strip. -/
def cleanedOf (l : List Char) : List Char :=
  stripChars (collapseSpacesAux false ((l.filter keptByClean).map toPlainSpace))

/-- Dot or comma, the two candidate decimal separators. -/
def isSepDot (c : Char) : Bool := c = '.' || c = ','

/-- Condition from the detection loop: position `i` holds a `[.,]` character
with a digit immediately on both sides. -/
def sepAt (l : List Char) (i : Nat) : Bool :=
  isSepDot (l.getD i (Char.ofNat 0)) && decide (0 < i) && decide (i + 1 < l.length) &&
  (l.getD (i - 1) (Char.ofNat 0)).isDigit && (l.getD (i + 1) (Char.ofNat 0)).isDigit

/-- Step (4): the decimal separator is the last `[.,]` occurrence with digits
on both sides, if any. -/
def lastSepIdx (l : List Char) : Option Nat :=
  ((List.range l.length).filter (fun i => sepAt l i)).getLast?

/-- Value of a (possibly empty) digit string, most significant digit first. -/
def digitsToNat (l : List Char) : Nat :=
  l.foldl (fun acc c => acc * 10 + (c.toNat - 48)) 0

/-- Python's `int(round(a / d))` for a nonnegative exact quotient `a / d`:
round half to even. -/
def roundHalfEvenDiv (a d : Nat) : Nat :=
  let q := a / d
  let r := a % d
  if 2 * r < d then q
  else if 2 * r > d then q + 1
  else if q % 2 = 0 then q else q + 1

/-- Shallow embedding of `_normalize_currency_number` (getCategoryRev.py,
lines 166-212).  The float arithmetic of the source is idealized as exact
arithmetic on the scaled integer `intPart * 10^k + fracPart`; the result is
the decimal string of the rounded value, as returned by
`str(int(round(val)))`.  This idealization is exact for values inside the
IEEE binary64 range; the overflow path of the source, where `float` gives
infinity and `int(round(...))` raises, is modelled separately by
`_normalize_currency_number_checked` below. -/
def _normalize_currency_number (s : String) : String :=
  let s1 := stripChars s.data
  let ms := splitKMB s1
  let mult := ms.1
  let cleaned := cleanedOf ms.2
  match lastSepIdx cleaned with
  | some i =>
    let int_part := (cleaned.take i).filter Char.isDigit
    let frac_part := (cleaned.drop (i + 1)).filter Char.isDigit
    let k := frac_part.length
    toString (roundHalfEvenDiv ((digitsToNat int_part * 10 ^ k + digitsToNat frac_part) * mult) (10 ^ k))
  | none =>
    let int_part := cleaned.filter Char.isDigit
    toString (roundHalfEvenDiv (digitsToNat int_part * mult) 1)

/-- Smallest exact magnitude that IEEE binary64 round-to-nearest-even sends
to infinity: 2^1024 - 2^970.  CPython `float` of a decimal string at or
above this value returns `inf`, and `int(round(inf))` then raises
`OverflowError`. -/
def FLOAT_OVERFLOW_NUM : Nat := 2 ^ 1024 - 2 ^ 970

/-- Refinement of `_normalize_currency_number` that keeps the float overflow
behaviour of the source: the exact value the source feeds through `float`
and scales by the K/M/B multiplier is `a / 10^k`; when it reaches the
binary64 overflow threshold, `float` yields infinity (at `float(num_str)`
for a huge digit run, or at `val *= mult`) and `str(int(round(val)))`
raises OverflowError, modelled as `Except.error`; below the threshold the
result is the same digit string as the idealized function.  The test uses
the exact value, so behaviour within one rounding ulp of the threshold is
approximate - every input in scope is far from it. -/
def _normalize_currency_number_checked (s : String) : Except String String :=
  let s1 := stripChars s.data
  let ms := splitKMB s1
  let mult := ms.1
  let cleaned := cleanedOf ms.2
  match lastSepIdx cleaned with
  | some i =>
    let int_part := (cleaned.take i).filter Char.isDigit
    let frac_part := (cleaned.drop (i + 1)).filter Char.isDigit
    let k := frac_part.length
    let a := (digitsToNat int_part * 10 ^ k + digitsToNat frac_part) * mult
    if FLOAT_OVERFLOW_NUM * 10 ^ k ≤ a then Except.error "OverflowError"
    else Except.ok (toString (roundHalfEvenDiv a (10 ^ k)))
  | none =>
    let a := digitsToNat (cleaned.filter Char.isDigit) * mult
    if FLOAT_OVERFLOW_NUM ≤ a then Except.error "OverflowError"
    else Except.ok (toString (roundHalfEvenDiv a 1))

/- ===================================================================
   apps/backend/ad.py : column constants, row builder, ledger writing
   =================================================================== -/

/-- Fixed logical row width (ad.py `ROW_WIDTH`). -/
def ROW_WIDTH : Nat := 32

/-- Column constants of ad.py (zero-indexed). -/
def COL_NO : Nat := 0

def COL_CATEGORY : Nat := 1

def COL_PRODUCTS : Nat := 2

def COL_CURRENT_MREV : Nat := 3

def COL_MONTHLY_MARKETCAP_1 : Nat := 4

/-- Base offsets of the three projected-units columns
(ad.py `ORIGINAL_COL_UNITS_20/15/10`). -/
def ORIGINAL_COL_UNITS_20 : Int := 18

def ORIGINAL_COL_UNITS_15 : Int := 22

def ORIGINAL_COL_UNITS_10 : Int := 26

/-- Python `str(s or "").replace('"', '""')` on the character list. -/
def escChars : List Char → List Char
  | [] => []
  | c :: rest => if c = '"' then '"' :: '"' :: escChars rest else c :: escChars rest

/-- ad.py `_esc` : double every quote for embedding inside a formula string. -/
def _esc (s : String) : String := String.mk (escChars s.data)

/-- ad.py `_hyper` : hyperlink formula, with the display text defaulting to
"link" when empty; returns the empty string for an empty url. -/
def _hyper (url text : String) : String :=
  if url ≠ "" then
    "=HYPERLINK(\"" ++ _esc url ++ "\",\"" ++ _esc (if text = "" then "link" else text) ++ "\")"
  else ""

/-- Shallow embedding of ad.py `_next_no_value` (lines 99-111).  A column-A
cell is represented by the outcome of Python `int(str(v).strip())` on it:
`some n` when it parses, `none` otherwise.  The source scans the cells in
reverse for the first parseable one (default 0), then returns `last + 1`
when `last >= 0` and 1 otherwise. -/
def _next_no_value (vals : List (Option Int)) : Int :=
  let last_num := (vals.reverse.findSome? id).getD 0
  if 0 ≤ last_num then last_num + 1 else 1

/-- Shallow embedding of ad.py `_write_partial_cells` (lines 213-234): the
list of single-cell update requests actually issued, i.e. exactly the
entries of `col_to_value` whose value is a non-empty string. -/
def _write_partial_cells (col_to_value : List (Nat × String)) : List (Nat × String) :=
  col_to_value.filter (fun e => e.2 ≠ "")

/-- Whether `_write_partial_cells` issues a batch update request at all: the
source returns early when the map is empty and again when every value was
skipped as empty. -/
def writeRequestIssued (col_to_value : List (Nat × String)) : Bool :=
  !(_write_partial_cells col_to_value).isEmpty

/-- Effect of the issued single-cell updates on a row: each update writes its
value at its column index (indices beyond the row are ignored by `List.set`,
matching a write beyond the grid). -/
def applyValueWrites (row : List String) (writes : List (Nat × String)) : List String :=
  writes.foldl (fun r e => r.set e.1 e.2) row

/-- Resolution of the three projected-units column offsets performed at the
top of ad.py `_build_row_from_product` (lines 368-393): `AFFECTED_COLS` is
first reset to the base offsets `[18, 22, 26]` (in the order units_20,
units_15, units_10) and then every entry is shifted by the segment/region
delta. -/
def resolveUnitsCols (seller_type country : String) : List Int :=
  let a : List Int := [ORIGINAL_COL_UNITS_20, ORIGINAL_COL_UNITS_15, ORIGINAL_COL_UNITS_10]
  if seller_type = "vendor" then
    if country ∉ ["US", "CAN"] then a.map (· + 3) else a.map (· + 2)
  else if seller_type = "existing_seller" then
    if country ∉ ["US", "CAN", "AUS"] then a.map (· + 1) else a.map (· - 0)
  else
    if country ∉ ["US", "CAN", "AUS"] then a.map (· - 1) else a.map (· - 2)

/-- GPT projection fields read by the row builder.  `none` models the `""`
default of `gp.get(...)`; the revenue and profit fields are read into locals
that the live code never writes to the row (those row assignments are
commented out in the source), so only the three sales counts matter here. -/
structure GptResponse where
  low_total_sales : Option Int
  base_total_sales : Option Int
  high_total_sales : Option Int

/-- Extraction result fields of a product that the row builder reads. -/
structure ProductResult where
  category_revenue_text : String
  parent_level_revenue_text : String
  gpt : GptResponse

/-- Product entry of a run, with the extraction result. -/
structure Product where
  productname : String
  url : String
  keyword : String
  categoryUrl : String
  result : ProductResult

/-- Python `str(u)` for a units cell: `str(low_units) if low_units != "" else ""`. -/
def optIntToCell : Option Int → String
  | none => ""
  | some n => toString n

/-- Shallow embedding of ad.py `_build_row_from_product` (lines 306-430).
After resolving the shifted units offsets, the local names are rebound as
`COL_UNITS_10, COL_UNITS_15, COL_UNITS_20 = AFFECTED_COLS[0..2]`, i.e.
`COL_UNITS_10` receives the shifted base-18 offset and `COL_UNITS_20` the
shifted base-26 offset.  For a new seller the products cell is copied over
the current-monthly-revenue cell and then that cell and all three units
cells are cleared. -/
def _build_row_from_product (prod : Product) (seller_type country : String) : List String :=
  let row := List.replicate ROW_WIDTH ""
  let affected := resolveUnitsCols seller_type country
  let col_units_10 := (affected.getD 0 0).toNat
  let col_units_15 := (affected.getD 1 0).toNat
  let col_units_20 := (affected.getD 2 0).toNat
  let row := row.set COL_CATEGORY
    (if prod.categoryUrl ≠ "" then _hyper prod.categoryUrl prod.keyword else prod.keyword)
  let row := row.set COL_PRODUCTS
    (if prod.url ≠ "" then _hyper prod.url prod.productname else prod.productname)
  let row := row.set COL_CURRENT_MREV prod.result.parent_level_revenue_text
  let row := row.set COL_MONTHLY_MARKETCAP_1 prod.result.category_revenue_text
  let row := row.set col_units_20 (optIntToCell prod.result.gpt.low_total_sales)
  let row := row.set col_units_15 (optIntToCell prod.result.gpt.base_total_sales)
  let row := row.set col_units_10 (optIntToCell prod.result.gpt.high_total_sales)
  if seller_type = "new_seller" then
    let row := row.set (COL_PRODUCTS + 1) (row.getD COL_PRODUCTS "")
    let row := row.set COL_CURRENT_MREV ""
    let row := row.set col_units_10 ""
    let row := row.set col_units_15 ""
    let row := row.set col_units_20 ""
    row
  else
    row

/-- The `col_to_value` map assembled per product in
`write_results_to_country_tabs` (ad.py lines 481-491): the sequence cell
first, then every index of the built row holding a non-empty value (the
builder never fills index 0, so the sequence entry is never overwritten). -/
def col_to_value_of (row_vals : List String) (next_no : Int) : List (Nat × String) :=
  (COL_NO, toString next_no) :: row_vals.enum.filter (fun e => e.2 ≠ "")

/-- Per-product ledger write of `write_results_to_country_tabs` (ad.py lines
473-499): the new row starts as a full duplicate of the last filled row
(`_insert_duplicate_of_last_row`, PASTE_NORMAL), and then exactly the
non-empty `col_to_value` cells are overwritten.  `colA` is the parse outcome
of each existing column-A cell and `template` the duplicated row. -/
def write_results_one_product (colA : List (Option Int)) (template : List String)
    (prod : Product) (seller_type country : String) : List String :=
  let row_vals := _build_row_from_product prod seller_type country
  let next_no := _next_no_value colA
  applyValueWrites template (_write_partial_cells (col_to_value_of row_vals next_no))

/-- The first sample product of ad.py `main()`: a UK new-seller product with
category revenue text "4,768,718" and projected low/base/high unit counts
63/96/135. -/
def sampleProduct : Product :=
  { productname := "WILSON NFL Super Grip Composite Footballs"
    url := "https://www.amazon.com/Wilson-Super-Grip-Official-Football/dp/B0012SNLJG"
    keyword := "football"
    categoryUrl := "https://www.amazon.com/s?k=football"
    result :=
      { category_revenue_text := "4,768,718"
        parent_level_revenue_text := "$231,767.51"
        gpt :=
          { low_total_sales := some 63
            base_total_sales := some 96
            high_total_sales := some 135 } } }

/- ===================================================================
   apps/backend/manual.py : competitor pricing columns, retries, CSV flow
   =================================================================== -/

/-- Column constants of manual.py (zero-indexed). -/
def COL_YOUR_COMPETITOR : Nat := 6

def COL_COMP_MREV : Nat := 7

/-- Base offsets of the competitor pricing columns
(manual.py `ORIGINAL_COL_YOUR_PRICE` / `ORIGINAL_COL_FBA_FEES` /
`ORIGINAL_COL_STORAGE_FEES`). -/
def ORIGINAL_COL_YOUR_PRICE : Int := 9

def ORIGINAL_COL_FBA_FEES : Int := 11

def ORIGINAL_COL_STORAGE_FEES : Int := 13

/-- State of the module-level offset globals `COL_YOUR_PRICE`,
`COL_FBA_FEES`, `COL_STORAGE_FEES` of manual.py. -/
structure PricingState where
  your_price : Int
  fba_fees : Int
  storage_fees : Int
deriving DecidableEq, Repr

/-- Base values of the pricing offset globals, as assigned at module load. -/
def basePricingState : PricingState :=
  { your_price := ORIGINAL_COL_YOUR_PRICE
    fba_fees := ORIGINAL_COL_FBA_FEES
    storage_fees := ORIGINAL_COL_STORAGE_FEES }

/-- Offset resolution block of manual.py `find_competitor_data` (lines
436-463): `AFFECTED_COLS` is rebuilt from the CURRENT values of the three
globals (order: price, fba fees, storage fees) and then mutated per
segment/region; the result is the list that lines 463-469 use as
`[COL_YOUR_PRICE, COL_FBA_FEES, COL_STORAGE_FEES]`. -/
def resolvePricingCols (st : PricingState) (seller_type country : String) : List Int :=
  let a : List Int := [st.your_price, st.fba_fees, st.storage_fees]
  if seller_type = "existing_seller" then
    if country ∉ ["US", "CAN", "AUS"] then
      let a := a.map (· + 1)
      a.set 0 (a.getD 0 0 - 1)
    else a
  else if seller_type = "vendor" then
    if country ∈ ["US", "CAN"] then
      let a := a.set 2 (a.getD 2 0 + 2)
      a.set 1 (a.getD 1 0 + 2)
    else a.set 2 (a.getD 2 0 + 3)
  else
    if country ∉ ["US", "CAN", "AUS"] then
      let a := a.map (· - 1)
      a.set 0 (a.getD 0 0 - 1)
    else a.map (· - 2)

/-- One successful-extraction attempt of `find_competitor_data` from offset
state `st`: line 463 stores the resolved offsets into the three globals,
line 469 performs the sheet write, and line 470 restores the globals to
their base values - but only when the write did not raise.  The attempt
returns the resolved column list and the state of the globals afterwards. -/
def findCompetitorAttempt (st : PricingState) (seller_type country : String)
    (writeSucceeds : Bool) : List Int × PricingState :=
  let r := resolvePricingCols st seller_type country
  (r, if writeSucceeds then basePricingState
      else { your_price := r.getD 0 0, fba_fees := r.getD 1 0, storage_fees := r.getD 2 0 })

/-- Events observable from the retry loops of manual.py: an invocation of the
profitability extraction call, or a fixed sleep of the given number of
seconds. -/
inductive RetryEvent where
  | extractionCall : RetryEvent
  | sleepSeconds : Nat → RetryEvent
deriving DecidableEq, Repr

/-- Retry loop of `find_competitor_data` (manual.py lines 389-477) around
`get_profitability_metrics`, with the extraction call abstracted as
`call attempt` (`none` models a raised exception).  Between failed attempts
the source only prints; there is no sleep in this loop.  On exhaustion the
loop logs and the function returns normally.  The result is the number of
invocations made, the final outcome, and the event trace. -/
def retryLoopAux {α : Type} (call : Nat → Option α) : Nat → Nat → Nat × Option α × List RetryEvent
  | _, 0 => (0, none, [])
  | attempt, rem + 1 =>
    match call attempt with
    | some v => (1, some v, [RetryEvent.extractionCall])
    | none =>
      let rest := retryLoopAux call (attempt + 1) rem
      (rest.1 + 1, rest.2.1, RetryEvent.extractionCall :: rest.2.2)

/-- Fixed retry ceiling `MAX_RETRIES=8` of both loops. -/
def MAX_RETRIES : Nat := 8

/-- The inner retry of `find_competitor_data`: attempts start at 1 and the
ceiling is 8. -/
def find_competitor_retry {α : Type} (call : Nat → Option α) : Nat × Option α × List RetryEvent :=
  retryLoopAux call 1 MAX_RETRIES

/-- Outer retry loop of `process_manual_csv` (manual.py lines 555-568)
around `find_competitor_data`, where `fc attempt = none` models
`find_competitor_data` itself raising.  A failed attempt sleeps 20 seconds;
success breaks out and the function reports success.  The result is the
number of `find_competitor_data` invocations, whether the run ended in
success, and the event trace (with `extractionCall` standing for the
`find_competitor_data` call). -/
def outerRetryAux (fc : Nat → Option Unit) : Nat → Nat → Nat × Bool × List RetryEvent
  | _, 0 => (0, false, [])
  | attempt, rem + 1 =>
    match fc attempt with
    | some _ => (1, true, [RetryEvent.extractionCall])
    | none =>
      let rest := outerRetryAux fc (attempt + 1) rem
      (rest.1 + 1, rest.2.1, RetryEvent.extractionCall :: RetryEvent.sleepSeconds 20 :: rest.2.2)

/-- The outer loop of `process_manual_csv` with its ceiling of 8. -/
def process_manual_retry (fc : Nat → Option Unit) : Nat × Bool × List RetryEvent :=
  outerRetryAux fc 1 MAX_RETRIES

/-- Decision reached by `process_manual_csv` (manual.py lines 481-592)
before any scraping happens: one of the three input-validation errors, the
competitor-data insertion path, or the already-has-competitor-data error
return. -/
inductive ManualDecision where
  | invalidRowNumber : ManualDecision
  | missingCountry : ManualDecision
  | missingKeyword : ManualDecision
  | insertPath : ManualDecision
  | alreadyHasData : ManualDecision
deriving DecidableEq, Repr

/-- The competitor cell and competitor-monthly-revenue cell of the target row
for a seller type (manual.py lines 533-538): columns 6 and 7, except for a
new seller, which uses columns 3 and 4 (`COL_PRODUCTS+1`, `COL_PRODUCTS+2`);
a missing cell reads as the empty string. -/
def competitorCells (seller_type : String) (row_data : List String) : String × String :=
  if seller_type ≠ "new_seller" then
    (row_data.getD COL_YOUR_COMPETITOR "", row_data.getD COL_COMP_MREV "")
  else
    (row_data.getD (COL_PRODUCTS + 1) "", row_data.getD (COL_PRODUCTS + 2) "")

/-- Python `s.strip()` on a string. -/
def pyStrip (s : String) : String := String.mk (stripChars s.data)

/-- Python emptiness test `not cell or cell.strip() == ""` used for both
competitor cells. -/
def cellEmpty (s : String) : Bool := s = "" || pyStrip s = ""

/-- Shallow embedding of the branch structure of `process_manual_csv`
(manual.py lines 481-592): validation guards, then the two emptiness flags,
which line 549 NEGATES before the branch, so the insertion path is taken
exactly when both cells are non-empty. -/
def process_manual_csv_decision (row_number : Int) (country keyword_phrase seller_type : String)
    (row_data : List String) : ManualDecision :=
  if row_number < 3 then ManualDecision.invalidRowNumber
  else if country = "" then ManualDecision.missingCountry
  else if keyword_phrase = "" || pyStrip keyword_phrase = "" then ManualDecision.missingKeyword
  else
    let cells := competitorCells seller_type row_data
    let competitor_empty := cellEmpty cells.1
    let comp_mrev_empty := cellEmpty cells.2
    let competitor_empty := !competitor_empty
    let comp_mrev_empty := !comp_mrev_empty
    if competitor_empty && comp_mrev_empty then ManualDecision.insertPath
    else ManualDecision.alreadyHasData

/-- Error string returned with `success: False` on the already-has-data
branch (manual.py lines 579-592), built from the negated flags: a cell whose
negated flag is false is listed as existing data. -/
def already_has_data_error (row_number : Int) (country : String) (cells : String × String) : String :=
  let competitor_empty := !cellEmpty cells.1
  let comp_mrev_empty := !cellEmpty cells.2
  let existing_data : List String :=
    (if !competitor_empty then ["Competitor: " ++ cells.1] else []) ++
    (if !comp_mrev_empty then ["Competitor Monthly Revenue: " ++ cells.2] else [])
  "Row " ++ toString row_number ++ " in '" ++ country ++ "' sheet already has competitor data: " ++
    String.intercalate ", " existing_data

/- ===================================================================
   Spec-side definitions (from the words of the specification)
   =================================================================== -/

/-- Modelled from the spec: the per-segment delta the specification states
for the projected-units column group (spec 4.5): vendor +3 outside US/CAN
else +2; existing seller +1 outside US/CAN/AUS else 0; new seller -1
outside US/CAN/AUS else -2. -/
def specUnitsDelta (seller_type country : String) : Int :=
  if seller_type = "vendor" then
    if country ∉ ["US", "CAN"] then 3 else 2
  else if seller_type = "existing_seller" then
    if country ∉ ["US", "CAN", "AUS"] then 1 else 0
  else
    if country ∉ ["US", "CAN", "AUS"] then -1 else -2

/-- Modelled from the spec: the resolved competitor-pricing offsets the
claim describes, as arithmetic on the bases 9/11/13 (claim C3): existing
seller shifts all three by +1 then the price alone back by -1 outside
US/CAN/AUS (else no shift); vendor shifts storage and fba fees by +2 in
US/CAN, else the storage fee alone by +3; new seller shifts all three by -1
then the price alone by -1 more outside US/CAN/AUS, else all three by -2. -/
def specPricingOffsets (seller_type country : String) : List Int :=
  if seller_type = "existing_seller" then
    if country ∉ ["US", "CAN", "AUS"] then [9 + 1 - 1, 11 + 1, 13 + 1] else [9, 11, 13]
  else if seller_type = "vendor" then
    if country ∈ ["US", "CAN"] then [9, 11 + 2, 13 + 2] else [9, 11, 13 + 3]
  else
    if country ∉ ["US", "CAN", "AUS"] then [9 - 1 - 1, 11 - 1, 13 - 1] else [9 - 2, 11 - 2, 13 - 2]

/-- Whether a retry event is a sleep. -/
def isSleepEvent : RetryEvent → Bool
  | RetryEvent.sleepSeconds _ => true
  | RetryEvent.extractionCall => false

/- ===================================================================
   Helper lemmas
   =================================================================== -/

/-- Characters of the stripped list are characters of the original list. -/
theorem mem_stripChars {l : List Char} {c : Char} (h : c ∈ stripChars l) : c ∈ l := by
  unfold stripChars at h
  rw [List.mem_reverse] at h
  have h1 : c ∈ (l.dropWhile pyIsSpaceChar).reverse := (List.dropWhile_sublist _).mem h
  rw [List.mem_reverse] at h1
  exact (List.dropWhile_sublist _).mem h1

/-- Characters of the collapsed list are spaces or characters of the input. -/
theorem mem_collapseSpacesAux {l : List Char} {c : Char} :
    ∀ {b : Bool}, c ∈ collapseSpacesAux b l → c = ' ' ∨ c ∈ l := by
  induction l with
  | nil => intro b h; simp [collapseSpacesAux] at h
  | cons a t ih =>
    intro b h
    unfold collapseSpacesAux at h
    split at h
    · split at h
      · rcases ih h with h' | h'
        · exact Or.inl h'
        · exact Or.inr (List.mem_cons_of_mem _ h')
      · rcases List.mem_cons.mp h with h' | h'
        · exact Or.inl h'
        · rcases ih h' with h'' | h''
          · exact Or.inl h''
          · exact Or.inr (List.mem_cons_of_mem _ h'')
    · rcases List.mem_cons.mp h with h' | h'
      · exact Or.inr (h' ▸ List.mem_cons_self a t)
      · rcases ih h' with h'' | h''
        · exact Or.inl h''
        · exact Or.inr (List.mem_cons_of_mem _ h'')

/-- Cleaning preserves the absence of digits. -/
theorem cleanedOf_no_digit {l : List Char} (hl : ∀ c ∈ l, c.isDigit = false)
    {c : Char} (h : c ∈ cleanedOf l) : c.isDigit = false := by
  unfold cleanedOf at h
  have h1 := mem_stripChars h
  rcases mem_collapseSpacesAux h1 with hc | hc
  · subst hc; decide
  · rw [List.mem_map] at hc
    obtain ⟨a, ha, rfl⟩ := hc
    have ha' : a ∈ l := (List.filter_sublist l).mem ha
    unfold toPlainSpace
    split
    · decide
    · exact hl a ha'

/-- The second component of the suffix split only has characters of the input. -/
theorem splitKMB_snd_mem {l : List Char} {c : Char} (h : c ∈ (splitKMB l).2) : c ∈ l := by
  rcases hg : l.getLast? with _ | a
  · simp only [splitKMB, hg] at h
    exact h
  · rcases hm : kmbMult a with _ | m
    · simp only [splitKMB, hg, hm] at h
      exact h
    · simp only [splitKMB, hg, hm] at h
      exact (List.dropLast_sublist l).mem (mem_stripChars h)

/-- Reading any position of a digit-free list with a non-digit default never
produces a digit. -/
theorem getD_not_digit {l : List Char} (hl : ∀ c ∈ l, c.isDigit = false) (j : Nat) :
    (l.getD j (Char.ofNat 0)).isDigit = false := by
  rcases hg : l.get? j with _ | c
  · simp only [List.getD, hg, Option.getD_none]
    decide
  · have hm : c ∈ l := List.get?_mem hg
    simp only [List.getD, hg, Option.getD_some]
    exact hl c hm

/-- No position of a digit-free list qualifies as a decimal separator. -/
theorem sepAt_false_of_no_digit {l : List Char} (hl : ∀ c ∈ l, c.isDigit = false) (i : Nat) :
    sepAt l i = false := by
  unfold sepAt
  rw [getD_not_digit hl (i + 1)]
  simp

/-- A digit-free cleaned string has no decimal separator. -/
theorem lastSepIdx_none_of_no_digit {l : List Char} (hl : ∀ c ∈ l, c.isDigit = false) :
    lastSepIdx l = none := by
  unfold lastSepIdx
  have : (List.range l.length).filter (fun i => sepAt l i) = [] := by
    rw [List.filter_eq_nil_iff]
    intro i _
    simp [sepAt_false_of_no_digit hl i]
  rw [this]
  rfl

/- ===================================================================
   Claims C5 and C6 : the currency normalizer
   =================================================================== -/

/-- Claim C5, counterexample: the claim states that the string with euro sign
and text 605.607 normalizes to 605607 (dot as thousands separator); under the
last-separator heuristic the source actually treats the dot as the decimal
separator and returns the rounded integer string "606". -/
theorem C5_counterexample :
    _normalize_currency_number "€605.607" = "606" ∧ ("606" : String) ≠ "605607" := by
  constructor
  · rfl
  · decide

/-- Claim C5 (amended): the decimal separator is the last dot or comma with a
digit on both sides, every other separator is discarded, an absent separator
means an integer, and a trailing K/M/B multiplies by 1e3/1e6/1e9 - but the
result is always rounded to the nearest integer and returned as a digit
string.  Hence the dollar amount 12,345.67 gives "12346", the euro amount
605.607 gives "606" (its dot is the decimal separator under the heuristic),
1.2M gives "1200000", the space-separated 605 607 gives "605607", and
4,768,718 gives "4769" (its last comma counts as the decimal separator). -/
theorem C5_normalizer_heuristic :
    _normalize_currency_number "$12,345.67" = "12346" ∧
    _normalize_currency_number "€605.607" = "606" ∧
    _normalize_currency_number "1.2M" = "1200000" ∧
    _normalize_currency_number "605 607" = "605607" ∧
    _normalize_currency_number "4,768,718" = "4769" := by
  exact ⟨rfl, rfl, rfl, rfl, rfl⟩

/-- Digit characters have value at most 9 under the conversion used by
`digitsToNat`. -/
theorem char_digit_sub_le (c : Char) (h : c.isDigit = true) : c.toNat - 48 ≤ 9 := by
  simp [Char.isDigit] at h
  obtain ⟨h1, h2⟩ := h
  have : c.toNat ≤ 57 := by
    simpa [Char.le_def, Char.toNat] using h2
  omega

/-- Bound on the folded value of a digit string, for any accumulator. -/
theorem digitsToNat_foldl_lt (l : List Char) : ∀ acc : Nat, (∀ c ∈ l, c.isDigit = true) →
    List.foldl (fun a c => a * 10 + (c.toNat - 48)) acc l < (acc + 1) * 10 ^ l.length := by
  induction l with
  | nil =>
    intro acc _
    simp
  | cons c t ih =>
    intro acc h
    have hd : c.toNat - 48 ≤ 9 := char_digit_sub_le c (h c (List.mem_cons_self _ _))
    have ht : ∀ x ∈ t, x.isDigit = true := fun x hx => h x (List.mem_cons_of_mem _ hx)
    simp only [List.foldl_cons, List.length_cons]
    calc List.foldl (fun a c => a * 10 + (c.toNat - 48)) (acc * 10 + (c.toNat - 48)) t
        < (acc * 10 + (c.toNat - 48) + 1) * 10 ^ t.length := ih _ ht
      _ ≤ ((acc + 1) * 10) * 10 ^ t.length := by
          gcongr
          omega
      _ = (acc + 1) * 10 ^ (t.length + 1) := by ring

/-- A digit string of k characters denotes a value below 10^k. -/
theorem digitsToNat_lt_pow (l : List Char) (h : ∀ c ∈ l, c.isDigit = true) :
    digitsToNat l < 10 ^ l.length := by
  have := digitsToNat_foldl_lt l 0 h
  simpa [digitsToNat] using this

/-- The K/M/B multiplier is at most 10^9. -/
theorem kmbMult_le (c : Char) (m : Nat) (h : kmbMult c = some m) : m ≤ 1000000000 := by
  unfold kmbMult at h
  split_ifs at h
  · injection h with h'
    omega
  · injection h with h'
    omega
  · injection h with h'
    omega

/-- The suffix-split multiplier is at most 10^9. -/
theorem splitKMB_fst_le (l : List Char) : (splitKMB l).1 ≤ 1000000000 := by
  rcases hg : l.getLast? with _ | c
  · simp only [splitKMB, hg]
    norm_num
  · rcases hm : kmbMult c with _ | m
    · simp only [splitKMB, hg, hm]
      norm_num
    · simp only [splitKMB, hg, hm]
      exact kmbMult_le c m hm

set_option maxRecDepth 10000 in
/-- Claim C6, counterexample: a numeric run of 320 nines is far beyond the
binary64 range, so the source's `float` conversion yields infinity and
`str(int(round(val)))` raises OverflowError - the function does NOT return
a finite numeric result without raising for every input string. -/
theorem C6_counterexample :
    _normalize_currency_number_checked (String.mk (List.replicate 320 '9')) =
      Except.error "OverflowError" := by
  rfl

/-- Claim C6 (amended): the normalizer always terminates, and the only way
it can raise is float overflow: on every input the float-faithful
refinement either returns the digit string computed by the idealized
function or raises OverflowError; it never raises when the cleaned numeric
run has at most 299 characters (every realistic currency string); and every
non-empty ASCII input with no digit characters (such as a bare dollar sign)
yields "0".  The ASCII restriction keeps the statement inside the range
where the embedded ASCII digit test coincides with the Unicode digit test
of the source's regexes, `isdigit` and `int()`. -/
theorem C6_normalizer_behavior (s : String) :
    (∃ n : Nat, _normalize_currency_number s = toString n) ∧
    (_normalize_currency_number_checked s = Except.ok (_normalize_currency_number s) ∨
      _normalize_currency_number_checked s = Except.error "OverflowError") ∧
    ((cleanedOf (splitKMB (stripChars s.data)).2).length ≤ 299 →
      _normalize_currency_number_checked s = Except.ok (_normalize_currency_number s)) ∧
    ((∀ c ∈ s.data, c.toNat ≤ 127) → (∀ c ∈ s.data, c.isDigit = false) →
      _normalize_currency_number_checked s = Except.ok "0" ∧
      _normalize_currency_number s = "0") := by
  have hmult : (splitKMB (stripChars s.data)).1 ≤ 1000000000 := splitKMB_fst_le _
  have hT : (10:Nat) ^ 308 ≤ FLOAT_OVERFLOW_NUM := by
    norm_num [FLOAT_OVERFLOW_NUM]
  refine ⟨?_, ?_, ?_, ?_⟩
  · simp only [_normalize_currency_number]
    rcases h : lastSepIdx (cleanedOf (splitKMB (stripChars s.data)).2) with _ | i
    · exact ⟨_, rfl⟩
    · exact ⟨_, rfl⟩
  · rcases hls : lastSepIdx (cleanedOf (splitKMB (stripChars s.data)).2) with _ | i
    · simp only [_normalize_currency_number_checked, _normalize_currency_number, hls]
      split
      · right
        rfl
      · left
        rfl
    · simp only [_normalize_currency_number_checked, _normalize_currency_number, hls]
      split
      · right
        rfl
      · left
        rfl
  · intro hlen
    rcases hls : lastSepIdx (cleanedOf (splitKMB (stripChars s.data)).2) with _ | i
    · simp only [_normalize_currency_number_checked, _normalize_currency_number, hls]
      have hnd : ∀ c ∈ (cleanedOf (splitKMB (stripChars s.data)).2).filter Char.isDigit,
          c.isDigit = true := fun c hc => List.of_mem_filter hc
      have hN := digitsToNat_lt_pow _ hnd
      have hlf : ((cleanedOf (splitKMB (stripChars s.data)).2).filter Char.isDigit).length ≤ 299 :=
        le_trans (List.length_filter_le _ _) hlen
      have key : digitsToNat ((cleanedOf (splitKMB (stripChars s.data)).2).filter Char.isDigit) *
          (splitKMB (stripChars s.data)).1 < FLOAT_OVERFLOW_NUM := by
        calc digitsToNat ((cleanedOf (splitKMB (stripChars s.data)).2).filter Char.isDigit) *
              (splitKMB (stripChars s.data)).1
            ≤ digitsToNat ((cleanedOf (splitKMB (stripChars s.data)).2).filter Char.isDigit) *
              1000000000 := Nat.mul_le_mul_left _ hmult
          _ < 10 ^ ((cleanedOf (splitKMB (stripChars s.data)).2).filter Char.isDigit).length *
              1000000000 := by gcongr <;> norm_num
          _ ≤ 10 ^ 299 * 1000000000 := by gcongr <;> norm_num
          _ = 10 ^ 308 := by norm_num
          _ ≤ FLOAT_OVERFLOW_NUM := hT
      rw [if_neg (not_le.mpr key)]
    · simp only [_normalize_currency_number_checked, _normalize_currency_number, hls]
      have hndi : ∀ c ∈ ((cleanedOf (splitKMB (stripChars s.data)).2).take i).filter Char.isDigit,
          c.isDigit = true := fun c hc => List.of_mem_filter hc
      have hndf : ∀ c ∈ ((cleanedOf (splitKMB (stripChars s.data)).2).drop (i + 1)).filter
          Char.isDigit, c.isDigit = true := fun c hc => List.of_mem_filter hc
      have hN := digitsToNat_lt_pow _ hndi
      have hF := digitsToNat_lt_pow _ hndf
      have hni : (((cleanedOf (splitKMB (stripChars s.data)).2).take i).filter Char.isDigit).length ≤
          299 := by
        refine le_trans (List.length_filter_le _ _) ?_
        rw [List.length_take]
        exact le_trans (min_le_right _ _) hlen
      have key : (digitsToNat (((cleanedOf (splitKMB (stripChars s.data)).2).take i).filter
            Char.isDigit) *
            10 ^ (((cleanedOf (splitKMB (stripChars s.data)).2).drop (i + 1)).filter
              Char.isDigit).length +
            digitsToNat (((cleanedOf (splitKMB (stripChars s.data)).2).drop (i + 1)).filter
              Char.isDigit)) *
            (splitKMB (stripChars s.data)).1 <
          FLOAT_OVERFLOW_NUM *
            10 ^ (((cleanedOf (splitKMB (stripChars s.data)).2).drop (i + 1)).filter
              Char.isDigit).length := by
        have step1 : digitsToNat (((cleanedOf (splitKMB (stripChars s.data)).2).take i).filter
              Char.isDigit) *
              10 ^ (((cleanedOf (splitKMB (stripChars s.data)).2).drop (i + 1)).filter
                Char.isDigit).length +
              digitsToNat (((cleanedOf (splitKMB (stripChars s.data)).2).drop (i + 1)).filter
                Char.isDigit) <
            10 ^ (((cleanedOf (splitKMB (stripChars s.data)).2).take i).filter
                Char.isDigit).length *
              10 ^ (((cleanedOf (splitKMB (stripChars s.data)).2).drop (i + 1)).filter
                Char.isDigit).length := by
          calc digitsToNat (((cleanedOf (splitKMB (stripChars s.data)).2).take i).filter
                Char.isDigit) *
                10 ^ (((cleanedOf (splitKMB (stripChars s.data)).2).drop (i + 1)).filter
                  Char.isDigit).length +
                digitsToNat (((cleanedOf (splitKMB (stripChars s.data)).2).drop (i + 1)).filter
                  Char.isDigit)
              < (digitsToNat (((cleanedOf (splitKMB (stripChars s.data)).2).take i).filter
                  Char.isDigit) + 1) *
                10 ^ (((cleanedOf (splitKMB (stripChars s.data)).2).drop (i + 1)).filter
                  Char.isDigit).length := by
                have hpos : 0 < (10:Nat) ^ (((cleanedOf (splitKMB (stripChars
                    s.data)).2).drop (i + 1)).filter Char.isDigit).length :=
                  Nat.pos_pow_of_pos _ (by omega)
                nlinarith [hF]
            _ ≤ 10 ^ (((cleanedOf (splitKMB (stripChars s.data)).2).take i).filter
                  Char.isDigit).length *
                10 ^ (((cleanedOf (splitKMB (stripChars s.data)).2).drop (i + 1)).filter
                  Char.isDigit).length := Nat.mul_le_mul_right _ hN
        calc (digitsToNat (((cleanedOf (splitKMB (stripChars s.data)).2).take i).filter
              Char.isDigit) *
              10 ^ (((cleanedOf (splitKMB (stripChars s.data)).2).drop (i + 1)).filter
                Char.isDigit).length +
              digitsToNat (((cleanedOf (splitKMB (stripChars s.data)).2).drop (i + 1)).filter
                Char.isDigit)) *
              (splitKMB (stripChars s.data)).1
            ≤ (digitsToNat (((cleanedOf (splitKMB (stripChars s.data)).2).take i).filter
                Char.isDigit) *
                10 ^ (((cleanedOf (splitKMB (stripChars s.data)).2).drop (i + 1)).filter
                  Char.isDigit).length +
                digitsToNat (((cleanedOf (splitKMB (stripChars s.data)).2).drop (i + 1)).filter
                  Char.isDigit)) * 1000000000 := Nat.mul_le_mul_left _ hmult
          _ < (10 ^ (((cleanedOf (splitKMB (stripChars s.data)).2).take i).filter
                  Char.isDigit).length *
                10 ^ (((cleanedOf (splitKMB (stripChars s.data)).2).drop (i + 1)).filter
                  Char.isDigit).length) * 1000000000 := by
                exact Nat.mul_lt_mul_of_lt_of_le step1 (le_refl _) (by norm_num)
          _ ≤ (10 ^ 299 *
                10 ^ (((cleanedOf (splitKMB (stripChars s.data)).2).drop (i + 1)).filter
                  Char.isDigit).length) * 1000000000 := by gcongr <;> norm_num
          _ = (10 ^ 299 * 1000000000) *
                10 ^ (((cleanedOf (splitKMB (stripChars s.data)).2).drop (i + 1)).filter
                  Char.isDigit).length := by ring
          _ = 10 ^ 308 *
                10 ^ (((cleanedOf (splitKMB (stripChars s.data)).2).drop (i + 1)).filter
                  Char.isDigit).length := by norm_num
          _ ≤ FLOAT_OVERFLOW_NUM *
                10 ^ (((cleanedOf (splitKMB (stripChars s.data)).2).drop (i + 1)).filter
                  Char.isDigit).length := Nat.mul_le_mul_right _ hT
      rw [if_neg (not_le.mpr key)]
  · intro _ hnd
    have h2 : ∀ c ∈ (splitKMB (stripChars s.data)).2, c.isDigit = false :=
      fun c hc => hnd c (mem_stripChars (splitKMB_snd_mem hc))
    have h3 : ∀ c ∈ cleanedOf (splitKMB (stripChars s.data)).2, c.isDigit = false :=
      fun c hc => cleanedOf_no_digit h2 hc
    have h4 := lastSepIdx_none_of_no_digit h3
    have h5 : (cleanedOf (splitKMB (stripChars s.data)).2).filter Char.isDigit = [] := by
      rw [List.filter_eq_nil_iff]
      intro a ha
      simp [h3 a ha]
    constructor
    · simp only [_normalize_currency_number_checked, h4]
      rw [h5]
      simp only [digitsToNat, List.foldl_nil, Nat.zero_mul]
      rw [if_neg (not_le.mpr (by norm_num [FLOAT_OVERFLOW_NUM]))]
      rfl
    · simp only [_normalize_currency_number, h4]
      rw [h5]
      simp only [digitsToNat, List.foldl_nil, Nat.zero_mul, roundHalfEvenDiv]
      rfl

/-- Claim C6, witness: a bare dollar sign yields "0" on both the idealized
function and the float-faithful refinement, and a short ordinary amount
stays on the no-raise path. -/
theorem C6_normalizer_behavior_witness :
    (_normalize_currency_number_checked "$" = Except.ok "0" ∧
      _normalize_currency_number "$" = "0") ∧
    _normalize_currency_number_checked "$12,345.67" =
      Except.ok (_normalize_currency_number "$12,345.67") := by
  constructor
  · exact (C6_normalizer_behavior "$").2.2.2 (by decide) (by decide)
  · exact (C6_normalizer_behavior "$12,345.67").2.2.1 (by decide)

/- ===================================================================
   Claims C2 and C3 : column-layout resolution
   =================================================================== -/

/-- Claim C2: for every seller type and supported country, the resolved
projected-units offsets are the base offsets 18/22/26 all shifted by the
same per-segment delta (vendor +3 outside US/CAN else +2; existing seller
+1 outside US/CAN/AUS else +0; new seller -1 outside US/CAN/AUS else -2). -/
theorem C2_units_offsets (seller_type country : String)
    (hs : seller_type ∈ ["vendor", "existing_seller", "new_seller"])
    (hc : country ∈ ["US", "UK", "CAN", "AUS", "DE", "UAE"]) :
    resolveUnitsCols seller_type country =
      [ORIGINAL_COL_UNITS_20 + specUnitsDelta seller_type country,
       ORIGINAL_COL_UNITS_15 + specUnitsDelta seller_type country,
       ORIGINAL_COL_UNITS_10 + specUnitsDelta seller_type country] := by
  fin_cases hs <;> fin_cases hc <;> decide

/-- Claim C2, witness: the new-seller UK resolution shifts 18/22/26 by -1. -/
theorem C2_units_offsets_witness :
    resolveUnitsCols "new_seller" "UK" =
      [ORIGINAL_COL_UNITS_20 + specUnitsDelta "new_seller" "UK",
       ORIGINAL_COL_UNITS_15 + specUnitsDelta "new_seller" "UK",
       ORIGINAL_COL_UNITS_10 + specUnitsDelta "new_seller" "UK"] :=
  C2_units_offsets "new_seller" "UK" (by decide) (by decide)

/-- Claim C3: for every seller type and supported country, the competitor
pricing columns resolved by find_competitor_data from the base state
9/11/13 are exactly the offsets the claim describes. -/
theorem C3_pricing_offsets (seller_type country : String)
    (hs : seller_type ∈ ["vendor", "existing_seller", "new_seller"])
    (hc : country ∈ ["US", "UK", "CAN", "AUS", "DE", "UAE"]) :
    resolvePricingCols basePricingState seller_type country =
      specPricingOffsets seller_type country := by
  fin_cases hs <;> fin_cases hc <;> decide

/-- Claim C3, witness: the existing-seller UK resolution gives price 9,
fulfillment fee 12, storage fee 14. -/
theorem C3_pricing_offsets_witness :
    resolvePricingCols basePricingState "existing_seller" "UK" =
      specPricingOffsets "existing_seller" "UK" :=
  C3_pricing_offsets "existing_seller" "UK" (by decide) (by decide)

/- ===================================================================
   Claim C4 : statelessness of the resolution
   =================================================================== -/

/-- Claim C4 (code bug): in manual.py the offset globals are restored only
on the success path, so an attempt whose sheet write raises leaves them
mutated, and the retried attempt - with the very same inputs - resolves
different, doubly shifted column indices.  Concretely, for a new seller in
the UK the first attempt resolves [7, 10, 12] and leaves the globals at
(7, 10, 12) instead of the base (9, 11, 13); the retry then resolves
[5, 9, 11]. -/
theorem C4_offset_state_leak :
    (findCompetitorAttempt basePricingState "new_seller" "UK" false).1 = [7, 10, 12] ∧
    (findCompetitorAttempt basePricingState "new_seller" "UK" false).2 ≠ basePricingState ∧
    (findCompetitorAttempt
      (findCompetitorAttempt basePricingState "new_seller" "UK" false).2
      "new_seller" "UK" false).1 = [5, 9, 11] ∧
    (findCompetitorAttempt
      (findCompetitorAttempt basePricingState "new_seller" "UK" false).2
      "new_seller" "UK" false).1 ≠
      (findCompetitorAttempt basePricingState "new_seller" "UK" false).1 := by
  refine ⟨rfl, ?_, rfl, ?_⟩ <;> decide

/- ===================================================================
   Claim C7 : the sequence number
   =================================================================== -/

/-- Claim C7, counterexample: for a column whose last integer-parseable value
is -5, the source returns 1, not -5 + 1 = -4, because of the `last_num >= 0`
guard. -/
theorem C7_counterexample :
    _next_no_value [some (-5)] = 1 ∧ (1 : Int) ≠ -5 + 1 := by
  constructor
  · rfl
  · decide

/-- Claim C7 (amended): `_next_no_value` returns the last integer-parseable
column-A value plus one when that value is nonnegative, and 1 when no value
parses or the last parseable value is negative; the result is always at
least 1, and appending the returned value to the column makes the next call
return exactly one more, so successive writes yield 1, 2, 3, ... -/
theorem C7_next_no_amended (vals : List (Option Int)) (n : Int) :
    (vals.reverse.findSome? id = some n → 0 ≤ n → _next_no_value vals = n + 1) ∧
    (vals.reverse.findSome? id = none → _next_no_value vals = 1) ∧
    (vals.reverse.findSome? id = some n → n < 0 → _next_no_value vals = 1) ∧
    1 ≤ _next_no_value vals ∧
    _next_no_value (vals ++ [some (_next_no_value vals)]) = _next_no_value vals + 1 := by
  refine ⟨?_, ?_, ?_, ?_, ?_⟩
  · intro h hn
    simp only [_next_no_value, h, Option.getD_some]
    rw [if_pos hn]
  · intro h
    simp only [_next_no_value, h, Option.getD_none]
    rfl
  · intro h hn
    simp only [_next_no_value, h, Option.getD_some]
    rw [if_neg (by omega)]
  · simp only [_next_no_value]
    split
    · omega
    · omega
  · have hx : 1 ≤ _next_no_value vals := by
      simp only [_next_no_value]
      split
      · omega
      · omega
    have hrev : (vals ++ [some (_next_no_value vals)]).reverse.findSome? id
        = some (_next_no_value vals) := by
      rw [List.reverse_append]
      rfl
    conv_lhs => rw [_next_no_value]
    rw [hrev]
    simp only [Option.getD_some]
    rw [if_pos (by omega)]

/-- Claim C7, witness: a column ending in 7 continues with 8, and an empty
column starts at 1. -/
theorem C7_next_no_amended_witness :
    _next_no_value [some 4, some 7] = 7 + 1 ∧ _next_no_value ([] : List (Option Int)) = 1 := by
  constructor
  · exact (C7_next_no_amended [some 4, some 7] 7).1 (by rfl) (by decide)
  · exact (C7_next_no_amended [] 0).2.1 (by rfl)

/- ===================================================================
   Claim C8 : partial cell writes
   =================================================================== -/

/-- Setting a different index leaves a cell unchanged. -/
theorem getD_set_ne_cell (l : List String) (i j : Nat) (v : String) (h : i ≠ j) :
    (l.set i v).getD j "" = l.getD j "" := by
  rw [List.getD_eq_getElem?_getD, List.getElem?_set_ne h, ← List.getD_eq_getElem?_getD]

/-- Setting an in-range index stores the value. -/
theorem getD_set_self_cell (l : List String) (i : Nat) (v : String) (h : i < l.length) :
    (l.set i v).getD i "" = v := by
  rw [List.getD_eq_getElem?_getD]
  rw [List.getElem?_set_self]
  · rfl
  · omega

/-- Cells whose column never occurs in a write list are untouched by
`applyValueWrites`. -/
theorem applyValueWrites_frame (c : Nat) :
    ∀ (ws : List (Nat × String)) (row : List String), (∀ v, (c, v) ∉ ws) →
      (applyValueWrites row ws).getD c "" = row.getD c "" := by
  intro ws
  induction ws with
  | nil => intro row _; rfl
  | cons e t ih =>
    intro row h
    obtain ⟨a, b⟩ := e
    have hne : a ≠ c := by
      intro hc
      subst hc
      exact h b (List.mem_cons_self _ _)
    have ht : ∀ v, (c, v) ∉ t := fun v hv => h v (List.mem_cons_of_mem _ hv)
    simp only [applyValueWrites, List.foldl_cons]
    rw [(by rfl : (List.foldl (fun r e => r.set e.1 e.2) (row.set a b) t) = applyValueWrites (row.set a b) t)]
    rw [ih (row.set a b) ht]
    exact getD_set_ne_cell row a c b hne

/-- With duplicate-free columns, a write list containing `(c, v)` makes the
cell at an in-range column `c` hold `v`. -/
theorem applyValueWrites_write (c : Nat) (v : String) :
    ∀ (ws : List (Nat × String)) (row : List String), (c, v) ∈ ws →
      (ws.map Prod.fst).Nodup → c < row.length →
      (applyValueWrites row ws).getD c "" = v := by
  intro ws
  induction ws with
  | nil =>
    intro row h
    simp at h
  | cons e t ih =>
    intro row hm hnd hlen
    obtain ⟨a, b⟩ := e
    simp only [List.map_cons, List.nodup_cons] at hnd
    simp only [applyValueWrites, List.foldl_cons]
    rw [(by rfl : (List.foldl (fun r e => r.set e.1 e.2) (row.set a b) t) = applyValueWrites (row.set a b) t)]
    rcases List.mem_cons.mp hm with he | ht
    · obtain ⟨h1, h2⟩ : c = a ∧ v = b := by
        simpa [Prod.ext_iff] using he
      subst h1
      subst h2
      have hkey : ∀ w, (c, w) ∉ t := by
        intro w hw
        exact hnd.1 (List.mem_map.mpr ⟨(c, w), hw, rfl⟩)
      rw [applyValueWrites_frame c t (row.set c v) hkey]
      exact getD_set_self_cell row c v hlen
    · have ha : a ≠ c := by
        intro hc
        subst hc
        exact hnd.1 (List.mem_map.mpr ⟨(a, v), ht, rfl⟩)
      exact ih (row.set a b) ht hnd.2 (by simpa using hlen)

/-- With duplicate-free columns, a column determines its value in the list. -/
theorem nodup_keys_value_unique (c : Nat) (x y : String) :
    ∀ (l : List (Nat × String)), (l.map Prod.fst).Nodup →
      (c, x) ∈ l → (c, y) ∈ l → x = y := by
  intro l
  induction l with
  | nil =>
    intro _ h
    simp at h
  | cons e t ih =>
    intro hnd hx hy
    obtain ⟨a, b⟩ := e
    simp only [List.map_cons, List.nodup_cons] at hnd
    rcases List.mem_cons.mp hx with hx' | hx' <;> rcases List.mem_cons.mp hy with hy' | hy'
    · obtain ⟨-, h2⟩ : c = a ∧ x = b := by simpa [Prod.ext_iff] using hx'
      obtain ⟨-, h4⟩ : c = a ∧ y = b := by simpa [Prod.ext_iff] using hy'
      rw [h2, h4]
    · obtain ⟨h1, -⟩ : c = a ∧ x = b := by simpa [Prod.ext_iff] using hx'
      subst h1
      exact absurd (List.mem_map.mpr ⟨(c, y), hy', rfl⟩) hnd.1
    · obtain ⟨h1, -⟩ : c = a ∧ y = b := by simpa [Prod.ext_iff] using hy'
      subst h1
      exact absurd (List.mem_map.mpr ⟨(c, x), hx', rfl⟩) hnd.1
    · exact ih hnd.2 hx' hy'

/-- Claim C8: `_write_partial_cells` issues writes for exactly the mapped
cells with a non-empty value - columns absent from the map keep their
pre-existing value, columns mapped to the empty string are skipped and also
keep their value, columns mapped to a non-empty value receive it, and when
every mapped value is empty no update request is issued at all. -/
theorem C8_write_partial_cells (ctv : List (Nat × String)) (row : List String) (c : Nat)
    (hnd : (ctv.map Prod.fst).Nodup) :
    ((∀ v, (c, v) ∉ ctv) →
      (applyValueWrites row (_write_partial_cells ctv)).getD c "" = row.getD c "") ∧
    ((c, "") ∈ ctv →
      (applyValueWrites row (_write_partial_cells ctv)).getD c "" = row.getD c "") ∧
    (∀ v, (c, v) ∈ ctv → v ≠ "" → c < row.length →
      (applyValueWrites row (_write_partial_cells ctv)).getD c "" = v) ∧
    ((∀ e ∈ ctv, e.2 = "") → writeRequestIssued ctv = false) := by
  refine ⟨?_, ?_, ?_, ?_⟩
  · intro h
    apply applyValueWrites_frame
    intro v hv
    exact h v ((List.filter_sublist _).mem hv)
  · intro hmem
    apply applyValueWrites_frame
    intro v hv
    have hvc : (c, v) ∈ ctv := (List.filter_sublist _).mem hv
    have hne : v ≠ "" := by simpa using List.of_mem_filter hv
    exact hne (nodup_keys_value_unique c v "" ctv hnd hvc hmem)
  · intro v hv hne hlen
    apply applyValueWrites_write
    · exact List.mem_filter.mpr ⟨hv, by simpa using hne⟩
    · exact List.Nodup.sublist (List.Sublist.map Prod.fst (List.filter_sublist _)) hnd
    · exact hlen
  · intro h
    have hnil : _write_partial_cells ctv = [] := by
      unfold _write_partial_cells
      rw [List.filter_eq_nil_iff]
      intro a ha
      simp [h a ha]
    unfold writeRequestIssued
    rw [hnil]
    rfl

/-- Claim C8, witness: on a 32-cell row, a map writing "x" at column 2 and
skipping column 5 leaves cell 5 unchanged and stores "x" at cell 2, and an
all-empty map issues no request. -/
theorem C8_write_partial_cells_witness :
    (applyValueWrites (List.replicate 32 "keep") (_write_partial_cells [(2, "x"), (5, "")])).getD 5 "" =
      (List.replicate 32 "keep").getD 5 "" ∧
    (applyValueWrites (List.replicate 32 "keep") (_write_partial_cells [(2, "x"), (5, "")])).getD 2 "" = "x" ∧
    writeRequestIssued [(2, ""), (7, "")] = false := by
  refine ⟨?_, ?_, ?_⟩
  · exact (C8_write_partial_cells [(2, "x"), (5, "")] (List.replicate 32 "keep") 5 (by decide)).2.1
      (by decide)
  · exact (C8_write_partial_cells [(2, "x"), (5, "")] (List.replicate 32 "keep") 2 (by decide)).2.2.1
      "x" (by decide) (by decide) (by decide)
  · exact (C8_write_partial_cells [(2, ""), (7, "")] (List.replicate 32 "keep") 0 (by decide)).2.2.2
      (by decide)

/- ===================================================================
   Claim C9 : retry termination
   =================================================================== -/

/-- Claim C9, counterexample: with an always-failing extraction call, the
retry loop of find_competitor_data performs exactly 8 invocations but its
event trace contains no sleep at all - the claimed fixed inter-attempt
delay does not exist in this loop (the only sleep, 20 seconds, lives in the
outer process_manual_csv loop). -/
theorem C9_counterexample :
    find_competitor_retry (fun _ => (none : Option Unit)) =
      (8, none, List.replicate 8 RetryEvent.extractionCall) ∧
    (List.replicate 8 RetryEvent.extractionCall).filter isSleepEvent = [] := by
  constructor
  · rfl
  · rfl

/-- Claim C9 (amended): with an always-failing extraction call the inner
retry loop of find_competitor_data invokes it exactly 8 times with no sleep
between attempts, then logs a terminal failure and returns normally with no
result; because no exception escapes, the outer process_manual_csv loop
performs a single find_competitor_data invocation and reports success, so
the remaining products and countries of the run are processed. -/
theorem C9_retry_termination :
    (find_competitor_retry (fun _ => (none : Option Unit))).1 = 8 ∧
    (find_competitor_retry (fun _ => (none : Option Unit))).2.1 = none ∧
    (find_competitor_retry (fun _ => (none : Option Unit))).2.2.filter isSleepEvent = [] ∧
    (find_competitor_retry (fun _ => (none : Option Unit))).2.2.length = 8 ∧
    process_manual_retry (fun _ => some ()) = (1, true, [RetryEvent.extractionCall]) := by
  exact ⟨rfl, rfl, rfl, rfl, rfl⟩

/- ===================================================================
   Claim C10 : the negated emptiness branch of process_manual_csv
   =================================================================== -/

/-- Claim C10: with valid inputs, process_manual_csv proceeds to the
competitor-data insertion path exactly when BOTH competitor cells of the
target row are non-empty under the source emptiness test; when both cells
are empty strings it takes the already-has-data branch, whose return is
success False with an error message saying the row already has competitor
data (listing the two empty cells) - all because the two emptiness flags
are negated before the branch. -/
theorem C10_manual_branch (row_number : Int) (country keyword_phrase seller_type : String)
    (row_data : List String) (h1 : 3 ≤ row_number) (h2 : country ≠ "")
    (h3 : pyStrip keyword_phrase ≠ "") :
    (process_manual_csv_decision row_number country keyword_phrase seller_type row_data =
        ManualDecision.insertPath ↔
      cellEmpty (competitorCells seller_type row_data).1 = false ∧
      cellEmpty (competitorCells seller_type row_data).2 = false) ∧
    ((competitorCells seller_type row_data).1 = "" ∧
        (competitorCells seller_type row_data).2 = "" →
      process_manual_csv_decision row_number country keyword_phrase seller_type row_data =
        ManualDecision.alreadyHasData ∧
      already_has_data_error row_number country (competitorCells seller_type row_data) =
        ("Row " ++ toString row_number ++ " in '" ++ country ++
          "' sheet already has competitor data: ") ++
          "Competitor: , Competitor Monthly Revenue: ") := by
  have hg1 : ¬ row_number < 3 := by omega
  have hkw : ¬ ((keyword_phrase = "" || pyStrip keyword_phrase = "") = true) := by
    intro hor
    rcases Bool.or_eq_true_iff.mp hor with h | h
    · have h0 : keyword_phrase = "" := by simpa using h
      apply h3
      rw [h0]
      rfl
    · exact h3 (by simpa using h)
  constructor
  · unfold process_manual_csv_decision
    rw [if_neg hg1, if_neg h2, if_neg hkw]
    constructor
    · intro h
      by_cases hb : (!cellEmpty (competitorCells seller_type row_data).1 &&
          !cellEmpty (competitorCells seller_type row_data).2) = true
      · rcases Bool.and_eq_true_iff.mp hb with ⟨hb1, hb2⟩
        exact ⟨by simpa using hb1, by simpa using hb2⟩
      · rw [if_neg hb] at h
        exact absurd h (by simp)
    · intro ⟨hf1, hf2⟩
      rw [if_pos (by simp [hf1, hf2])]
  · intro ⟨hc1, hc2⟩
    constructor
    · unfold process_manual_csv_decision
      rw [if_neg hg1, if_neg h2, if_neg hkw]
      rw [if_neg]
      rw [hc1, hc2]
      simp [cellEmpty]
    · unfold already_has_data_error
      rw [hc1, hc2]
      congr 1

/-- Claim C10, witness: on a row with both competitor cells filled the
insertion path is taken, and on an all-empty row the already-has-data
branch is taken with its error message. -/
theorem C10_manual_branch_witness :
    process_manual_csv_decision 4 "UK" "kw" "existing_seller"
      (List.replicate 6 "" ++ ["comp", "mrev"]) = ManualDecision.insertPath ∧
    process_manual_csv_decision 4 "UK" "kw" "existing_seller"
      (List.replicate 32 "") = ManualDecision.alreadyHasData := by
  constructor
  · exact (C10_manual_branch 4 "UK" "kw" "existing_seller"
      (List.replicate 6 "" ++ ["comp", "mrev"]) (by decide) (by decide) (by decide)).1.mpr
      (by constructor <;> rfl)
  · exact ((C10_manual_branch 4 "UK" "kw" "existing_seller"
      (List.replicate 32 "") (by decide) (by decide) (by decide)).2 (by constructor <;> rfl)).1

/- ===================================================================
   Claim C1 : the new-seller UK end-to-end row
   =================================================================== -/

/-- Digit rendering always produces at least one character. -/
theorem toDigitsCore_length_lt (b : Nat) : ∀ (fuel n : Nat) (ds : List Char), 0 < fuel →
    ds.length < (Nat.toDigitsCore b fuel n ds).length := by
  intro fuel
  induction fuel with
  | zero =>
    intro n ds h
    omega
  | succ f ih =>
    intro n ds _
    unfold Nat.toDigitsCore
    by_cases h : n / b = 0
    · simp [h]
    · simp only [h, if_false]
      by_cases hf : 0 < f
      · have := ih (n / b) (Nat.digitChar (n % b) :: ds) hf
        simp at this ⊢
        omega
      · have hf0 : f = 0 := by omega
        subst hf0
        unfold Nat.toDigitsCore
        simp

/-- Decimal representation of a natural number is never the empty string. -/
theorem nat_repr_ne_empty (m : Nat) : Nat.repr m ≠ "" := by
  have h := toDigitsCore_length_lt 10 (m + 1) m [] (by omega)
  intro hc
  have hdata : (Nat.repr m).data = [] := by rw [hc]
  unfold Nat.repr Nat.toDigits at hdata
  simp [List.asString] at hdata
  rw [hdata] at h
  simp at h

/-- Decimal representation of an integer is never the empty string: the
sequence cell written as `str(next_no)` is always non-empty, hence never
skipped by the partial write. -/
theorem int_toString_ne_empty (n : Int) : toString n ≠ "" := by
  cases n with
  | ofNat m =>
    show Int.repr (Int.ofNat m) ≠ ""
    unfold Int.repr
    exact nat_repr_ne_empty m
  | negSucc m =>
    show Int.repr (Int.negSucc m) ≠ ""
    have h2 : Int.repr (Int.negSucc m) = "-" ++ Nat.repr (m + 1) := rfl
    rw [h2]
    intro hc
    have : ("-" ++ Nat.repr (m + 1)).data = [] := by rw [hc]
    simp at this

/-- A mapped cell with a non-empty value is kept by `_write_partial_cells`. -/
theorem write_partial_cells_cons_ne (k : Nat) (v : String) (t : List (Nat × String))
    (hv : v ≠ "") :
    _write_partial_cells ((k, v) :: t) = (k, v) :: _write_partial_cells t := by
  simp [_write_partial_cells, List.filter_cons, hv]

/-- Claim C1, counterexample: for the sample UK new-seller product with
projections 63/96/135, the built row holds the EMPTY string at all three
new-seller UK units offsets 17/21/25 - the new-seller branch clears the
units cells it just filled - so they are not populated with "63"/"96"/"135"
as the claim states. -/
theorem C1_counterexample :
    (_build_row_from_product sampleProduct "new_seller" "UK").getD 17 "" = "" ∧
    (_build_row_from_product sampleProduct "new_seller" "UK").getD 21 "" = "" ∧
    (_build_row_from_product sampleProduct "new_seller" "UK").getD 25 "" = "" ∧
    ("" : String) ≠ "63" ∧ ("" : String) ≠ "96" ∧ ("" : String) ≠ "135" := by
  refine ⟨rfl, rfl, rfl, ?_, ?_, ?_⟩ <;> decide

/-- Claim C1 (amended): for the sample UK new-seller product the built row
has the empty string at the three new-seller UK units offsets 17/21/25 and
at the current-monthly-revenue column 3 (the new-seller branch clears all
four), so the ledger writer - which skips empty values - leaves those four
cells of the freshly duplicated template row untouched; the category
monthly revenue lands in column 4, and the sequence column 0 is written as
`_next_no_value` of column A, i.e. one plus the last integer-parseable
prior number. -/
theorem C1_new_seller_uk_row (colA : List (Option Int)) (template : List String)
    (h : template.length = ROW_WIDTH) :
    (write_results_one_product colA template sampleProduct "new_seller" "UK").getD COL_NO "" =
      toString (_next_no_value colA) ∧
    (write_results_one_product colA template sampleProduct "new_seller" "UK").getD 17 "" =
      template.getD 17 "" ∧
    (write_results_one_product colA template sampleProduct "new_seller" "UK").getD 21 "" =
      template.getD 21 "" ∧
    (write_results_one_product colA template sampleProduct "new_seller" "UK").getD 25 "" =
      template.getD 25 "" ∧
    (write_results_one_product colA template sampleProduct "new_seller" "UK").getD COL_CURRENT_MREV "" =
      template.getD COL_CURRENT_MREV "" ∧
    (write_results_one_product colA template sampleProduct "new_seller" "UK").getD COL_MONTHLY_MARKETCAP_1 "" =
      "4,768,718" := by
  have t0ne : toString (_next_no_value colA) ≠ "" := int_toString_ne_empty _
  have hctv : col_to_value_of (_build_row_from_product sampleProduct "new_seller" "UK")
      (_next_no_value colA) =
      (0, toString (_next_no_value colA)) ::
        [(1, "=HYPERLINK(\"https://www.amazon.com/s?k=football\",\"football\")"),
         (2, "=HYPERLINK(\"https://www.amazon.com/Wilson-Super-Grip-Official-Football/dp/B0012SNLJG\",\"WILSON NFL Super Grip Composite Footballs\")"),
         (4, "4,768,718")] := rfl
  have hpipe : write_results_one_product colA template sampleProduct "new_seller" "UK" =
      (((template.set 0 (toString (_next_no_value colA))).set 1
          "=HYPERLINK(\"https://www.amazon.com/s?k=football\",\"football\")").set 2
          "=HYPERLINK(\"https://www.amazon.com/Wilson-Super-Grip-Official-Football/dp/B0012SNLJG\",\"WILSON NFL Super Grip Composite Footballs\")").set 4
          "4,768,718" := by
    simp only [write_results_one_product]
    rw [hctv]
    rw [write_partial_cells_cons_ne 0 _ _ t0ne]
    rfl
  have hlen0 : 0 < template.length := by
    rw [h]
    decide
  have hlen4 : 4 <
      ((((template.set 0 (toString (_next_no_value colA))).set 1
          "=HYPERLINK(\"https://www.amazon.com/s?k=football\",\"football\")").set 2
          "=HYPERLINK(\"https://www.amazon.com/Wilson-Super-Grip-Official-Football/dp/B0012SNLJG\",\"WILSON NFL Super Grip Composite Footballs\")")).length := by
    simp only [List.length_set]
    rw [h]
    decide
  refine ⟨?_, ?_, ?_, ?_, ?_, ?_⟩
  · rw [hpipe]
    show ((((template.set 0 _).set 1 _).set 2 _).set 4 _).getD 0 "" = _
    rw [getD_set_ne_cell _ 4 0 _ (by decide)]
    rw [getD_set_ne_cell _ 2 0 _ (by decide)]
    rw [getD_set_ne_cell _ 1 0 _ (by decide)]
    exact getD_set_self_cell template 0 _ hlen0
  · rw [hpipe]
    rw [getD_set_ne_cell _ 4 17 _ (by decide)]
    rw [getD_set_ne_cell _ 2 17 _ (by decide)]
    rw [getD_set_ne_cell _ 1 17 _ (by decide)]
    rw [getD_set_ne_cell _ 0 17 _ (by decide)]
  · rw [hpipe]
    rw [getD_set_ne_cell _ 4 21 _ (by decide)]
    rw [getD_set_ne_cell _ 2 21 _ (by decide)]
    rw [getD_set_ne_cell _ 1 21 _ (by decide)]
    rw [getD_set_ne_cell _ 0 21 _ (by decide)]
  · rw [hpipe]
    rw [getD_set_ne_cell _ 4 25 _ (by decide)]
    rw [getD_set_ne_cell _ 2 25 _ (by decide)]
    rw [getD_set_ne_cell _ 1 25 _ (by decide)]
    rw [getD_set_ne_cell _ 0 25 _ (by decide)]
  · rw [hpipe]
    show ((((template.set 0 _).set 1 _).set 2 _).set 4 _).getD 3 "" = _
    rw [getD_set_ne_cell _ 4 3 _ (by decide)]
    rw [getD_set_ne_cell _ 2 3 _ (by decide)]
    rw [getD_set_ne_cell _ 1 3 _ (by decide)]
    rw [getD_set_ne_cell _ 0 3 _ (by decide)]
    rfl
  · rw [hpipe]
    show ((((template.set 0 _).set 1 _).set 2 _).set 4 _).getD 4 "" = _
    exact getD_set_self_cell _ 4 _ hlen4

/-- Claim C1, witness: the pipeline evaluated on a concrete prior column A
(ending in 2) and a concrete 32-cell template row. -/
theorem C1_new_seller_uk_row_witness :
    (write_results_one_product [some 2] (List.replicate 32 "tmpl") sampleProduct "new_seller" "UK").getD COL_NO "" =
      toString (_next_no_value [some 2]) ∧
    (write_results_one_product [some 2] (List.replicate 32 "tmpl") sampleProduct "new_seller" "UK").getD 17 "" =
      (List.replicate 32 "tmpl").getD 17 "" ∧
    (write_results_one_product [some 2] (List.replicate 32 "tmpl") sampleProduct "new_seller" "UK").getD 21 "" =
      (List.replicate 32 "tmpl").getD 21 "" ∧
    (write_results_one_product [some 2] (List.replicate 32 "tmpl") sampleProduct "new_seller" "UK").getD 25 "" =
      (List.replicate 32 "tmpl").getD 25 "" ∧
    (write_results_one_product [some 2] (List.replicate 32 "tmpl") sampleProduct "new_seller" "UK").getD COL_CURRENT_MREV "" =
      (List.replicate 32 "tmpl").getD COL_CURRENT_MREV "" ∧
    (write_results_one_product [some 2] (List.replicate 32 "tmpl") sampleProduct "new_seller" "UK").getD COL_MONTHLY_MARKETCAP_1 "" =
      "4,768,718" :=
  C1_new_seller_uk_row [some 2] (List.replicate 32 "tmpl") (by decide)
